import Mathlib

/-!
Verification development for the `six_degrees` repository (Rust).

The definitions below are a shallow embedding of the program's data model and
operations, translated from the Rust sources in `src/`:

  * `src/entry.rs`      - `Digest`, `Entry`, `Entry::get_digest` (MD5 of the title)
  * `src/foundation.rs` - `round_down_to_power_of_2`, `get_foundation_for`,
                          `extract_worker_id_from`, `extract_slab_id_from`
  * `src/fetch.rs`      - the wikipedia payload decoders (`serde` derived), `parse`,
                          `build_url`, `fetch_page`, `get_cache_directory_from`,
                          `cache_page`, `get_page_from`, `check_maxlag`,
                          `get_links_from_title`
  * `src/worker.rs`     - `WorkerCommand`, `WorkerResponse`, the body of
                          `worker_service` / `process_request`
  * `src/api.rs`        - `api_service`

Machine integers are modelled as `Nat` with explicit `% 2^w` where the Rust code
can wrap; fallible operations return `Option`/`Except`.  External effects (the
file system, the HTTP client, channel sends, sleeps) are made explicit: the file
system is a finite map from paths to bodies, the HTTP side is an oracle
`Nat → Except FetchError Body`, and the instrumented pipeline additionally
returns the number of upstream attempts and sleeps it performed.
-/

set_option maxRecDepth 40000

/-! ## MD5 (the `md5` crate's `md5::compute`), over lists of bytes -/

/-- Truncate to a 32-bit word, as Rust's wrapping `u32` arithmetic does. -/
def u32 (n : Nat) : Nat := n % 4294967296

/-- Left-rotation of a 32-bit word.  For `x < 2^32` and `0 < n < 32` the two
summands occupy disjoint bit ranges, so `+` agrees with bitwise or. -/
def rotl32 (x n : Nat) : Nat := u32 (x * 2 ^ n + x / 2 ^ (32 - n))

/-- Bitwise complement of a 32-bit word (valid for `x < 2^32`). -/
def not32 (x : Nat) : Nat := 4294967295 - x

/-- The 64 MD5 sine-derived round constants. -/
def md5_k : List Nat := [
  3614090360, 3905402710, 606105819, 3250441966, 4118548399, 1200080426, 2821735955, 4249261313,
  1770035416, 2336552879, 4294925233, 2304563134, 1804603682, 4254626195, 2792965006, 1236535329,
  4129170786, 3225465664, 643717713, 3921069994, 3593408605, 38016083, 3634488961, 3889429448,
  568446438, 3275163606, 4107603335, 1163531501, 2850285829, 4243563512, 1735328473, 2368359562,
  4294588738, 2272392833, 1839030562, 4259657740, 2763975236, 1272893353, 4139469664, 3200236656,
  681279174, 3936430074, 3572445317, 76029189, 3654602809, 3873151461, 530742520, 3299628645,
  4096336452, 1126891415, 2878612391, 4237533241, 1700485571, 2399980690, 4293915773, 2240044497,
  1873313359, 4264355552, 2734768916, 1309151649, 4149444226, 3174756917, 718787259, 3951481745]

/-- The 64 MD5 per-round left-rotation amounts. -/
def md5_s : List Nat := [
  7, 12, 17, 22, 7, 12, 17, 22, 7, 12, 17, 22, 7, 12, 17, 22,
  5, 9, 14, 20, 5, 9, 14, 20, 5, 9, 14, 20, 5, 9, 14, 20,
  4, 11, 16, 23, 4, 11, 16, 23, 4, 11, 16, 23, 4, 11, 16, 23,
  6, 10, 15, 21, 6, 10, 15, 21, 6, 10, 15, 21, 6, 10, 15, 21]

/-- The MD5 round mixing function for round `i`. -/
def md5_f (i b c d : Nat) : Nat :=
  if i < 16 then (b &&& c) ||| (not32 b &&& d)
  else if i < 32 then (d &&& b) ||| (not32 d &&& c)
  else if i < 48 then b ^^^ c ^^^ d
  else c ^^^ (b ||| not32 d)

/-- The MD5 message-word index for round `i`. -/
def md5_g (i : Nat) : Nat :=
  if i < 16 then i
  else if i < 32 then (5 * i + 1) % 16
  else if i < 48 then (3 * i + 5) % 16
  else (7 * i) % 16

/-- One MD5 round: state `(a, b, c, d)`, message words `m`, round index `i`. -/
def md5_step (m : List Nat) (st : Nat × Nat × Nat × Nat) (i : Nat) :
    Nat × Nat × Nat × Nat :=
  let (a, b, c, d) := st
  let f := u32 (md5_f i b c d + a + md5_k.getD i 0 + m.getD (md5_g i) 0)
  (d, u32 (b + rotl32 f (md5_s.getD i 0)), b, c)

/-- Split a 64-byte chunk into 16 little-endian 32-bit words. -/
def chunk_words : List Nat → List Nat
  | b0 :: b1 :: b2 :: b3 :: rest =>
      (b0 + 256 * (b1 + 256 * (b2 + 256 * b3))) :: chunk_words rest
  | _ => []

/-- Process one 64-byte chunk, updating the running state. -/
def md5_chunk (st : Nat × Nat × Nat × Nat) (chunk : List Nat) :
    Nat × Nat × Nat × Nat :=
  let m := chunk_words chunk
  let (a, b, c, d) := (List.range 64).foldl (md5_step m) st
  (u32 (st.1 + a), u32 (st.2.1 + b), u32 (st.2.2.1 + c), u32 (st.2.2.2 + d))

/-- Fold the MD5 compression over successive 64-byte chunks.  The first
argument counts the remaining chunks (the padded message length divided by 64),
so the recursion is structural and kernel-reducible. -/
def md5_chunks : Nat → List Nat → Nat × Nat × Nat × Nat → Nat × Nat × Nat × Nat
  | 0, _, st => st
  | fuel + 1, l, st => md5_chunks fuel (l.drop 64) (md5_chunk st (l.take 64))

/-- `count` little-endian bytes of `n`. -/
def le_bytes : Nat → Nat → List Nat
  | _, 0 => []
  | n, k + 1 => n % 256 :: le_bytes (n / 256) k

/-- MD5 padding: `0x80`, zeros to 56 mod 64, then the 64-bit little-endian bit length. -/
def md5_pad (msg : List Nat) : List Nat :=
  let len := msg.length
  msg ++ [128] ++ List.replicate ((119 - len % 64) % 64) 0 ++ le_bytes (len * 8 % 2 ^ 64) 8

/-- MD5 of a byte sequence, as the 16-byte digest. -/
def md5 (msg : List Nat) : List Nat :=
  let padded := md5_pad msg
  let (a, b, c, d) :=
    md5_chunks (padded.length / 64) padded (1732584193, 4023233417, 2562383102, 271733878)
  le_bytes a 4 ++ le_bytes b 4 ++ le_bytes c 4 ++ le_bytes d 4

/-- UTF-8 encoding of one character (Rust hashes the title's UTF-8 bytes). -/
def utf8_char (c : Char) : List Nat :=
  let n := c.toNat
  if n < 128 then [n]
  else if n < 2048 then [192 + n / 64, 128 + n % 64]
  else if n < 65536 then [224 + n / 4096, 128 + n / 64 % 64, 128 + n % 64]
  else [240 + n / 262144, 128 + n / 4096 % 64, 128 + n / 64 % 64, 128 + n % 64]

/-- UTF-8 bytes of a string. -/
def utf8_bytes (s : String) : List Nat := (s.data.map utf8_char).flatten

/-! ## `src/entry.rs` -/

/-- `entry::Digest`, a 16-byte MD5 digest (`[u8; 16]`). -/
abbrev Digest := List Nat

/-- `entry::Entry` (src/entry.rs). -/
structure Entry where
  digest : Digest
  outbound_count : Nat
  inbound_count : Nat
  outbound : List Digest
  inbound : List Digest
  title : String
deriving DecidableEq

/-- `Entry::get_digest`: `md5::compute(title)` over the title's UTF-8 bytes. -/
def Entry.get_digest (title : String) : Digest := md5 (utf8_bytes title)

/-! ## `src/foundation.rs` -/

/-- `foundation::Foundation`. -/
structure Foundation where
  worker_count : Nat
  bitwise_worker_match : Nat
  slabs_per_worker : Nat
  bitwise_slab_match : Nat
  spare_count : Nat
  spare_slabs : List Nat
deriving DecidableEq, Repr

/-- The loop body of `round_down_to_power_of_2`: `while power <= value { power *= 2 }`.
The fuel bounds the number of doublings; starting from `power = 1`, 33 doublings
exceed every `u32` value, so the fuel never runs out on the source's domain. -/
def round_down_go : Nat → Nat → Nat → Nat
  | 0, power, _ => power / 2
  | fuel + 1, power, value =>
      if power ≤ value then round_down_go fuel (power * 2) value else power / 2

/-- `foundation::round_down_to_power_of_2`. -/
def round_down_to_power_of_2 (value : Nat) : Nat := round_down_go 33 1 value

/-- `foundation::get_foundation_for` (src/foundation.rs lines 91-132).  All
memory quantities are in KiB, as in the source.  The fatal
`std::process::exit(1)` on memories below the 2 GiB floor is modelled as
`none`.  The `cores` argument is accepted and ignored exactly as in the
source.  (Rust's `u64` subtraction would panic if the reserve exceeded the
memory; `Nat` subtraction truncates instead, which is only reachable for
worker counts far outside the `u16`-bounded topology.) -/
def get_foundation_for (system_memory : Nat) (cores : Nat) (raw_workers : Nat) :
    Option Foundation :=
  if system_memory < 2097152 then none
  else
    let _ := cores
    let worker_count := round_down_to_power_of_2 raw_workers
    let tx_handle_count := max (8 * worker_count / 1024) 1024
    let working_memory := 1024 * 1024
    let message_size := worker_count
    let tokio_task_cache := 64 * worker_count / 1024
    let reserved_memory := working_memory + tx_handle_count + message_size + tokio_task_cache
    let memory_for_slabs := system_memory - reserved_memory
    let slabs := min (memory_for_slabs / 1024) 65535
    let slabs_per_worker := round_down_to_power_of_2 (slabs / worker_count)
    let spare_count := (slabs - worker_count * slabs_per_worker) * 2
    some { worker_count := worker_count
           bitwise_worker_match := worker_count - 1
           slabs_per_worker := slabs_per_worker
           bitwise_slab_match := slabs_per_worker - 1
           spare_count := spare_count
           spare_slabs := [] }

/-- `foundation::tests::get_test_foundation`. -/
def get_test_foundation : Option Foundation := get_foundation_for 8589934 8 16

/-- `Foundation::extract_worker_id_from` (also duplicated as
`Worker::extract_worker_id_from` in src/worker.rs): build a `u16` from digest
octets 0-1 little-endian and mask it with `bitwise_worker_match`.  The `u16`
arithmetic is made explicit with `% 65536`. -/
def extract_worker_id_from (bitwise_worker_match : Nat) (digest : Digest) : Nat :=
  let id := digest.getD 1 0
  let id := id * 2 ^ 8 % 65536
  let id := (id + digest.getD 0 0) % 65536
  id &&& bitwise_worker_match

/-- `Foundation::extract_slab_id_from`: digest octets 2-3, little-endian,
masked with `bitwise_slab_match`. -/
def extract_slab_id_from (bitwise_slab_match : Nat) (digest : Digest) : Nat :=
  let id := digest.getD 3 0
  let id := id * 2 ^ 8 % 65536
  let id := (id + digest.getD 2 0) % 65536
  id &&& bitwise_slab_match

/-! ## JSON values and the serde-derived decoders of `src/fetch.rs`

`serde_json::from_str::<T>` first parses the text into a JSON value and then
runs `T`'s derived `Deserialize`.  The text-to-value step is external library
code; we model payloads at the value level.  A `Body` is the JSON meaning of a
response body: `some j` for a body that is valid JSON denoting `j`, `none` for
text that is not valid JSON (on which every `from_str` call fails).  JSON
numbers carry their exact decimal value as a rational; none of the embedded
code computes with them.  Objects are field lists; the derived deserializers
accept unknown fields and reject missing ones, and we look fields up by first
occurrence (serde rejects duplicate fields, which no payload here has). -/

/-- A JSON number, kept as the exact decimal it was written as:
`mantissa / 10 ^ exp10`.  No embedded operation computes with numbers, so this
representation only needs structural equality. -/
structure JsonNum where
  mantissa : Int
  exp10 : Nat
deriving DecidableEq

inductive Json where
  | null
  | bool (b : Bool)
  | num (n : JsonNum)
  | str (s : String)
  | arr (elems : List Json)
  | obj (fields : List (String × Json))

/-- The JSON reading of a response body: `none` models text that is not JSON. -/
abbrev Body := Option Json

/-- Fields of a JSON object, if the value is an object. -/
def Json.objFields : Json → Option (List (String × Json))
  | .obj fields => some fields
  | _ => none

/-- Look a field up by name (first occurrence). -/
def getField (fields : List (String × Json)) (name : String) : Option Json :=
  (fields.find? (fun p => p.1 = name)).map (·.2)

/-- Deserialize a JSON string. -/
def asString : Json → Option String
  | .str s => some s
  | _ => none

/-- Deserialize a JSON number. -/
def asNum : Json → Option JsonNum
  | .num n => some n
  | _ => none

/-- Deserialize an `i32`: an integer JSON number in range (serde_json rejects
floats for integer targets; integers are written with `exp10 = 0`). -/
def asI32 (j : Json) : Option Int := do
  let n ← asNum j
  if n.exp10 = 0 ∧ -(2 ^ 31) ≤ n.mantissa ∧ n.mantissa < 2 ^ 31 then some n.mantissa else none

/-- Deserialize a `u32`: a nonnegative integer JSON number in range. -/
def asU32 (j : Json) : Option Nat := do
  let n ← asNum j
  if n.exp10 = 0 ∧ 0 ≤ n.mantissa ∧ n.mantissa < 2 ^ 32 then some n.mantissa.toNat else none

/-- Deserialize an `Option<String>` field: absent or `null` is `none`;
a present non-string, non-null value fails the whole record. -/
def getOptStringField (fields : List (String × Json)) (name : String) :
    Option (Option String) :=
  match getField fields name with
  | none => some none
  | some .null => some none
  | some (.str s) => some (some s)
  | some _ => none

/-- `fetch::Link` (serde: `ns`, optional `exists`, `"*"` renamed to `title`). -/
structure Link where
  ns : Int
  exists_ : Option String
  title : String
deriving DecidableEq

/-- `fetch::Links` (`title`, `pageid`, `links`). -/
structure Links where
  title : String
  pageid : Nat
  links : List Link
deriving DecidableEq

/-- `fetch::Page` (`parse`). -/
structure Page where
  parse : Links
deriving DecidableEq

/-- `fetch::MaxLagFrame` (`code`, `info`, `host`, `lag`, `type`, `"*"`). -/
structure MaxLagFrame where
  code : String
  info : String
  host : String
  lag : JsonNum
  maxlag_type : String
  notes : String
deriving DecidableEq

/-- `fetch::MaxLagError` (`error`, `servedby`). -/
structure MaxLagError where
  error : MaxLagFrame
  servedby : String
deriving DecidableEq

/-- `fetch::MisssingTitleFrame` (sic; `code`, `info`, `"*"`). -/
structure MisssingTitleFrame where
  code : String
  info : String
  notes : String
deriving DecidableEq

/-- `fetch::MissingTitleError` (`error`, `servedby`). -/
structure MissingTitleError where
  error : MisssingTitleFrame
  servedby : String
deriving DecidableEq

/-- Derived `Deserialize` for `Link`. -/
def decodeLink (j : Json) : Option Link := do
  let fields ← j.objFields
  let ns ← getField fields "ns" >>= asI32
  let ex ← getOptStringField fields "exists"
  let title ← getField fields "*" >>= asString
  pure { ns := ns, exists_ := ex, title := title }

/-- Derived `Deserialize` for `Links`. -/
def decodeLinks (j : Json) : Option Links := do
  let fields ← j.objFields
  let title ← getField fields "title" >>= asString
  let pageid ← getField fields "pageid" >>= asU32
  let linksJson ← match getField fields "links" with
                  | some (.arr elems) => some elems
                  | _ => none
  let links ← linksJson.mapM decodeLink
  pure { title := title, pageid := pageid, links := links }

/-- Derived `Deserialize` for `Page`. -/
def decodePage (j : Json) : Option Page := do
  let fields ← j.objFields
  let links ← getField fields "parse" >>= decodeLinks
  pure { parse := links }

/-- Derived `Deserialize` for `MaxLagFrame`. -/
def decodeMaxLagFrame (j : Json) : Option MaxLagFrame := do
  let fields ← j.objFields
  let code ← getField fields "code" >>= asString
  let info ← getField fields "info" >>= asString
  let host ← getField fields "host" >>= asString
  let lag ← getField fields "lag" >>= asNum
  let ty ← getField fields "type" >>= asString
  let notes ← getField fields "*" >>= asString
  pure { code := code, info := info, host := host, lag := lag,
         maxlag_type := ty, notes := notes }

/-- Derived `Deserialize` for `MaxLagError`. -/
def decodeMaxLagError (j : Json) : Option MaxLagError := do
  let fields ← j.objFields
  let frame ← getField fields "error" >>= decodeMaxLagFrame
  let servedby ← getField fields "servedby" >>= asString
  pure { error := frame, servedby := servedby }

/-- Derived `Deserialize` for `MisssingTitleFrame`.  Note that, exactly as in
the source, nothing constrains the value of `code`. -/
def decodeMisssingTitleFrame (j : Json) : Option MisssingTitleFrame := do
  let fields ← j.objFields
  let code ← getField fields "code" >>= asString
  let info ← getField fields "info" >>= asString
  let notes ← getField fields "*" >>= asString
  pure { code := code, info := info, notes := notes }

/-- Derived `Deserialize` for `MissingTitleError`. -/
def decodeMissingTitleError (j : Json) : Option MissingTitleError := do
  let fields ← j.objFields
  let frame ← getField fields "error" >>= decodeMisssingTitleFrame
  let servedby ← getField fields "servedby" >>= asString
  pure { error := frame, servedby := servedby }

/-! ## `src/fetch.rs`: errors, `parse`, URL building, cache, retry loop -/

/-- `fetch::FetchError`.  Payloads that only carry diagnostics (io/reqwest
errors) are modelled as strings; `Lag` carries the reported seconds. -/
inductive FetchError where
  | Io (msg : String)
  | Reqwest (msg : String)
  | Http (status : Nat)
  | Lag (secs : JsonNum)
  | MissingTitle
  | Parse (msg : String)
deriving DecidableEq

/-- `fetch::FetchEntry`. -/
structure FetchEntry where
  digest : Digest
  title : String
  outbound : List String
deriving DecidableEq

deriving instance DecidableEq for Except

/-- `type FetchResult = Result<FetchEntry, FetchError>`. -/
abbrev FetchResult := Except FetchError FetchEntry

/-- `static MAXLAG: &str = "5"`. -/
def MAXLAG : String := "5"

/-- `static MAXLAG_VALUE: u64 = MAXLAG.parse().unwrap()`. -/
def MAXLAG_VALUE : Nat := 5

/-- `static PARSE_ERROR: &str`. -/
def PARSE_ERROR : String := "Unknown wikipedia payload"

/-- `fetch::extract_links_from`: keep namespace-0 links, map to titles,
digest the parsed title. -/
def extract_links_from (parsed : Page) : FetchResult :=
  let outbound := (parsed.parse.links.filter (fun link => link.ns = 0)).map (·.title)
  let digest := Entry.get_digest parsed.parse.title
  .ok { digest := digest, title := parsed.parse.title, outbound := outbound }

/-- `fetch::parse` (src/fetch.rs lines 335-358): try the success shape, then
the maxlag shape, then the missing-title shape, else a `Parse` error with the
fixed `PARSE_ERROR` message. -/
def parse (payload : Body) : FetchResult :=
  match payload.bind decodePage with
  | some parsed => extract_links_from parsed
  | none =>
    match payload.bind decodeMaxLagError with
    | some lag => .error (.Lag lag.error.lag)
    | none =>
      match payload.bind decodeMissingTitleError with
      | some _ => .error .MissingTitle
      | none => .error (.Parse PARSE_ERROR)

/-! ### HTTP request shape: `build_url`, the clients -/

/-- The observable configuration of a reqwest client: whether gzip
`Accept-Encoding` is negotiated and which `User-Agent` header is sent. -/
structure ClientConfig where
  gzip : Bool
  user_agent : Option String
deriving DecidableEq

/-- The `CLIENT` lazy static (src/fetch.rs lines 94-102): gzip enabled and a
descriptive user agent.  This client is built but never used by `fetch_page`. -/
def CLIENT : ClientConfig := { gzip := true, user_agent := some "SixDegrees/0.1 sixdegrees@streete.net" }

/-- The client behind the free function `reqwest::get`, which `fetch_page`
actually calls: a fresh default client, with no gzip preference and no
`User-Agent` header configured. -/
def reqwest_default_client : ClientConfig := { gzip := false, user_agent := none }

/-- The `ATTRIBUTES_FOR_PAGE` lazy static, including `("maxlag", MAXLAG)`.
Like `CLIENT`, it is defined in src/fetch.rs but never used. -/
def ATTRIBUTES_FOR_PAGE : List (String × String) :=
  [("action", "parse"), ("format", "json"), ("prop", "links"), ("maxlag", MAXLAG)]

/-- `fetch::build_url` (src/fetch.rs lines 445-458): the root URL together
with the query pairs handed to `Url::parse_with_params`. -/
def build_url (root_url : String) (title : String) : String × List (String × String) :=
  (root_url, [("action", "parse"), ("format", "json"), ("page", title), ("prop", "links")])

/-- The upstream HTTP request that one `fetch_page(root_url, title)` call
issues: the URL built by `build_url`, sent through `reqwest::get`'s default
client (src/fetch.rs lines 390-405). -/
structure RequestSpec where
  url : String × List (String × String)
  client : ClientConfig
deriving DecidableEq

/-- The request issued by `fetch_page` for a given root URL and title. -/
def fetch_page_request (root_url : String) (title : String) : RequestSpec :=
  { url := build_url root_url title, client := reqwest_default_client }

/-! ### The disk cache: paths, write, read -/

/-- One lowercase hex digit. -/
def hex_digit (n : Nat) : Char :=
  if n < 10 then Char.ofNat (48 + n) else Char.ofNat (87 + n)

/-- `format!("{:02x?}", byte)`: two lowercase hex digits of a `u8`. -/
def hex2 (n : Nat) : String := ⟨[hex_digit (n / 16 % 16), hex_digit (n % 16)]⟩

/-- Split a file name at its final dot, per Rust `Path::file_stem` /
`Path::extension`: no dot, or a leading dot with no other dot, means no
extension. -/
def split_at_last_dot (name : List Char) : List Char × Option (List Char) :=
  let rev := name.reverse
  let revExt := rev.takeWhile (fun c => c ≠ '.')
  let rest := rev.dropWhile (fun c => c ≠ '.')
  match rest with
  | [] => (name, none)
  | _ :: stemRev =>
    match stemRev with
    | [] => (name, none)
    | _ => (stemRev.reverse, some revExt.reverse)

/-- Rust `PathBuf::set_extension(ext)` on a single file-name component:
replace the extension (if any) by `ext`. -/
def set_extension (name : String) (ext : String) : String :=
  let (stem, _) := split_at_last_dot name.data
  ⟨stem⟩ ++ "." ++ ext

/-- A path is its list of components. -/
abbrev FsPath := List String

/-- `fetch::get_cache_directory_from` (src/fetch.rs lines 433-443): the cache
root extended by the hex of digest octets 2, 1, 0, then the title pushed as
the file name with its extension set to `json`.  `create_dir_all` is modelled
as succeeding; titles containing path separators are outside this model. -/
def get_cache_directory_from (cache_root : FsPath) (title : String) : FsPath :=
  let title_digest := Entry.get_digest title
  cache_root ++ [hex2 (title_digest.getD 2 0), hex2 (title_digest.getD 1 0),
                 hex2 (title_digest.getD 0 0), set_extension title "json"]

/-- The disk cache as a finite map from paths to bodies (later writes shadow
earlier ones). -/
abbrev Fs := List (FsPath × Body)

/-- `fs::write`: whole-file replace. -/
def fs_write (fs : Fs) (path : FsPath) (contents : Body) : Fs := (path, contents) :: fs

/-- `fs::read_to_string`, as the JSON meaning of the file's content. -/
def fs_read (fs : Fs) (path : FsPath) : Option Body :=
  (fs.find? (fun e => e.1 = path)).map (·.2)

/-- `fetch::cache_page` (src/fetch.rs lines 424-443): write the raw body to
the page's cache path when the path was computed successfully (write failures
are only logged, so the success path is the model). -/
def cache_page (contents : Body) (path_to_page : Option FsPath) (fs : Fs) : Fs :=
  match path_to_page with
  | some path => fs_write fs path contents
  | none => fs

/-! ### The fetch pipeline, instrumented

The environment supplies the cache root, the current cache contents and the
upstream HTTP oracle: `http n` is the outcome of the `(n+1)`-st upstream
request this `get` would issue (a body, or a transport/HTTP-status error).
The instrumented results record how many upstream requests and how many
`MAXLAG_VALUE`-second sleeps actually happened. -/

structure FetchEnv where
  cache_root : FsPath
  fs : Fs
  http : Nat → Except FetchError Body

/-- `fetch::get_page_from` (src/fetch.rs lines 317-333): consult the cache at
the title's path; on a hit read the file, otherwise issue one upstream
request.  The boolean records whether HTTP was used. -/
def get_page_from (env : FetchEnv) (title : String) : Except FetchError Body × Bool :=
  let path_to_page := get_cache_directory_from env.cache_root title
  match fs_read env.fs path_to_page with
  | some contents => (.ok contents, false)
  | none => (env.http 0, true)

/-- Result of the `check_maxlag` loop: the fetch result, the cache after any
write, the number of upstream refetches and the number of 5-second sleeps. -/
structure MaxLagOut where
  result : FetchResult
  fs : Fs
  fetches : Nat
  sleeps : Nat

/-- The loop of `fetch::check_maxlag` (src/fetch.rs lines 360-386), recursing
on the `tries` counter (initially 4): a successful response is cached and
returned; a `Lag` response with tries left sleeps `MAXLAG_VALUE` seconds,
refetches and reparses; any other error (or `Lag` with no tries left) is
returned; a refetch failure propagates through `?`. -/
def check_maxlag_go (http : Nat → Except FetchError Body) (path : FsPath) :
    Nat → Nat → FetchResult → Body → Fs → MaxLagOut
  | _, _, .ok entry, page, fs =>
      { result := .ok entry, fs := cache_page page (some path) fs, fetches := 0, sleeps := 0 }
  | _, 0, .error (.Lag l), _, fs =>
      { result := .error (.Lag l), fs := fs, fetches := 0, sleeps := 0 }
  | attempt, tries + 1, .error (.Lag _), _, fs =>
      match http attempt with
      | .error e => { result := .error e, fs := fs, fetches := 1, sleeps := 1 }
      | .ok page2 =>
          let out := check_maxlag_go http path (attempt + 1) tries (parse page2) page2 fs
          { out with fetches := out.fetches + 1, sleeps := out.sleeps + 1 }
  | _, _, .error e, _, fs =>
      { result := .error e, fs := fs, fetches := 0, sleeps := 0 }

/-- `fetch::check_maxlag` with its initial budget `tries = 4`; upstream
attempt `0` was the initial fetch, so refetches start at attempt `1`. -/
def check_maxlag (http : Nat → Except FetchError Body) (path : FsPath)
    (response : FetchResult) (page : Body) (fs : Fs) : MaxLagOut :=
  check_maxlag_go http path 1 4 response page fs

/-- Rust `char::is_whitespace`: the Unicode `White_Space` property. -/
def rust_is_whitespace (c : Char) : Bool :=
  let n := c.toNat
  decide ((9 ≤ n ∧ n ≤ 13) ∨ n = 32 ∨ n = 133 ∨ n = 160 ∨ n = 5760 ∨
    (8192 ≤ n ∧ n ≤ 8202) ∨ n = 8232 ∨ n = 8233 ∨ n = 8239 ∨ n = 8287 ∨ n = 12288)

/-- Rust `str::trim` on a character list. -/
def rust_trim_list (l : List Char) : List Char :=
  (((l.dropWhile rust_is_whitespace).reverse.dropWhile rust_is_whitespace)).reverse

/-- Rust `str::trim`. -/
def rust_trim (s : String) : String := ⟨rust_trim_list s.data⟩

/-- Result of one `get_links_from_title` call: the fetch result, the cache
afterwards, the number of upstream HTTP attempts and of 5-second sleeps. -/
structure GetOut where
  result : FetchResult
  fs : Fs
  http_attempts : Nat
  sleeps : Nat

/-- The body of `get_links_from_title` after the `title.trim()` line:
`get_page_from`, `parse`, `check_maxlag`. -/
def get_links_trimmed (env : FetchEnv) (title : String) : GetOut :=
  let path := get_cache_directory_from env.cache_root title
  match get_page_from env title with
  | (.error e, used) =>
      { result := .error e, fs := env.fs, http_attempts := if used then 1 else 0, sleeps := 0 }
  | (.ok fetched_page, used) =>
      let response := parse fetched_page
      let out := check_maxlag env.http path response fetched_page env.fs
      { result := out.result, fs := out.fs,
        http_attempts := out.fetches + (if used then 1 else 0), sleeps := out.sleeps }

/-- `fetch::get_links_from_title` (src/fetch.rs lines 309-314): trim the
title, then fetch, parse and run the maxlag loop on the trimmed title. -/
def get_links_from_title (env : FetchEnv) (title : String) : GetOut :=
  get_links_trimmed env (rust_trim title)

/-! ## `src/worker.rs` -/

/-- `worker::WorkerResponse`.  The source enum has exactly these two variants:
there is no `Missing` variant and `Links` carries no entry. -/
inductive WorkerResponse where
  | Links
  | Fetch
deriving DecidableEq

/-- `worker::WorkerCommand`.  The `Request` reply channel is modelled by
recording the responses sent on it. -/
inductive WorkerCommand where
  | End
  | Request (title : String)
  | Update (e : Entry)

/-- What one iteration of the worker loop sends: replies on the request's
response channel, fetch commands enqueued to the fetcher, and entries
installed into slabs.  (The `Worker` struct owns no slab storage at all, so
installations can only ever be empty.) -/
structure WorkerEffects where
  replies : List WorkerResponse
  fetch_requests : List String
  slab_insertions : List Entry
deriving DecidableEq

/-- Outcome of one iteration of `worker_service`'s loop. -/
inductive WorkerStep where
  | continues (effects : WorkerEffects)
  | stops
  | fatal (msg : String)
deriving DecidableEq

/-- `Worker::process_request` (src/worker.rs lines 141-168): computes the
title's digest, opens an unused local channel, and sends
`WorkerResponse::Fetch` on the reply channel.  The remainder of the function
is a comment; no slab is consulted, nothing is inserted, and the fetcher is
never contacted. -/
def process_request (title : String) : WorkerEffects :=
  let _digest := Entry.get_digest title
  { replies := [.Fetch], fetch_requests := [], slab_insertions := [] }

/-- One iteration of `Worker::worker_service`'s loop (src/worker.rs lines
117-139).  On `Request` the digest and worker id are computed (and discarded)
and `process_request` runs; `End` breaks the loop; `Update` hits `todo!()`,
which panics with "not yet implemented". -/
def worker_step (bitwise_worker_match : Nat) : WorkerCommand → WorkerStep
  | .Request title =>
      let digest := Entry.get_digest title
      let _id := extract_worker_id_from bitwise_worker_match digest
      .continues (process_request title)
  | .End => .stops
  | .Update _ => .fatal "not yet implemented"

/-! ## `src/api.rs` -/

/-- An incoming HTTP request: method, URI path, optional raw query string. -/
structure HttpRequest where
  method : String
  path : String
  query : Option String

/-- An outgoing HTTP response. -/
structure HttpResponse where
  status : Nat
  body : String
deriving DecidableEq

/-- Rust `char::to_ascii_lowercase`. -/
def ascii_lower_char (c : Char) : Char :=
  if 65 ≤ c.toNat ∧ c.toNat ≤ 90 then Char.ofNat (c.toNat + 32) else c

/-- Rust `str::to_ascii_lowercase`. -/
def ascii_lowercase (s : String) : String := ⟨s.data.map ascii_lower_char⟩

/-- Rust `str::split(sep)` on a character list: splits at every separator,
keeping empty pieces (so a leading separator yields a leading empty piece). -/
def split_char (sep : Char) : List Char → List (List Char)
  | [] => [[]]
  | c :: rest =>
    match split_char sep rest with
    | [] => [[]]
    | piece :: pieces =>
        if c = sep then [] :: piece :: pieces else (c :: piece) :: pieces

/-- `path.split('/')` as strings. -/
def split_on_slash (s : String) : List String :=
  (split_char '/' s.data).map (fun cs => (⟨cs⟩ : String))

/-- One `form_urlencoded` pair: split a piece at the first `=`, mapping `+`
to space (percent-decoding of multi-byte escapes is not modelled; no claim
depends on query values). -/
def query_pair (piece : List Char) : String × String :=
  let plusToSpace : List Char → List Char := List.map (fun c => if c = '+' then ' ' else c)
  let key := piece.takeWhile (fun c => c ≠ '=')
  match piece.dropWhile (fun c => c ≠ '=') with
  | [] => (⟨plusToSpace key⟩, "")
  | _ :: value => (⟨plusToSpace key⟩, ⟨plusToSpace value⟩)

/-- `url::form_urlencoded::parse(..).into_owned().collect::<HashMap<_,_>>()`:
parse the query string into pairs; collecting into a map keeps the last
occurrence of each key. -/
def parse_query : Option String → List (String × String)
  | none => []
  | some q => (split_char '&' q.data).map query_pair

/-- `HashMap::get` after collect: last binding of the key wins. -/
def map_get (params : List (String × String)) (key : String) : Option String :=
  (params.reverse.find? (fun p => p.1 = key)).map (·.2)

/-- Rust `str::parse::<i32>` restricted to the unsigned forms that can appear
here, with `unwrap_or(2)` applied by the caller on failure. -/
def parse_nat_or (s : String) (dflt : Nat) : Nat :=
  if s.data ≠ [] ∧ s.data.all (fun c => 48 ≤ c.toNat ∧ c.toNat ≤ 57) then
    s.data.foldl (fun acc c => acc * 10 + (c.toNat - 48)) 0
  else dflt

/-- `api::StartFrom`. -/
inductive StartFrom where
  | title (s : String)
  | url (s : String)

/-- `format!("{:?}", root)` for `Option<StartFrom>` (string escaping beyond
quoting is not modelled; no claim inspects this body). -/
def debug_root : Option StartFrom → String
  | none => "None"
  | some (.title s) => "Some(title(\"" ++ s ++ "\"))"
  | some (.url s) => "Some(url(\"" ++ s ++ "\"))"

/-- `api::api_service` (src/api.rs lines 110-169).  GET requests whose path
does not have exactly two `/`-separated components with the second
ASCII-lowercasing to `connections` get a 404 whose body names the path; a
matching GET gets a 200 echoing its depth and start selector; every non-GET
request falls through to `Response::default()` with the status set to 404 and
the body left empty. -/
def api_service (req : HttpRequest) : HttpResponse :=
  if req.method = "GET" then
    let components := split_on_slash req.path
    if components.length ≠ 2 ∨ ascii_lowercase (components.getD 1 "") ≠ "connections" then
      { status := 404, body := "Nothing found at " ++ req.path }
    else
      let params := parse_query req.query
      let depth := max (min (parse_nat_or ((map_get params "depth").getD "2") 2) 6) 1
      let root : Option StartFrom :=
        match map_get params "title" with
        | some t => some (.title t)
        | none =>
          match map_get params "url" with
          | some u => some (.url u)
          | none => none
      { status := 200, body := "Depth: " ++ toString depth ++ "\nRoot:   " ++ debug_root root }
  else
    { status := 404, body := "" }

/-! ## Concrete payloads

JSON values of the test payloads embedded in src/fetch.rs (`SUCCESS_PAGE`,
`MAXLAG_PAGE`, `MISSING_TITLE_PAGE`, `FAIL_PAGE`), plus an error payload with
an unrelated error code. -/

/-- The `SUCCESS_PAGE` payload of src/fetch.rs. -/
def success_page : Json := .obj [
  ("parse", .obj [
    ("title", .str "Value network"),
    ("pageid", .num ⟨1614337, 0⟩),
    ("links", .arr [
      .obj [("ns", .num ⟨1, 0⟩), ("exists", .str ""), ("*", .str "Talk:Value network")],
      .obj [("ns", .num ⟨0, 0⟩), ("exists", .str ""), ("*", .str "Adolescent cliques")],
      .obj [("ns", .num ⟨0, 0⟩), ("exists", .str ""), ("*", .str "Assortative mixing")],
      .obj [("ns", .num ⟨11, 0⟩), ("exists", .str ""), ("*", .str "Template talk:Social networking")],
      .obj [("ns", .num ⟨12, 0⟩), ("exists", .str ""), ("*", .str "Help:Maintenance template removal")]])])]

/-- The `MAXLAG_PAGE` payload of src/fetch.rs (`lag = 0.596`). -/
def maxlag_page : Json := .obj [
  ("error", .obj [
    ("code", .str "maxlag"),
    ("info", .str "Waiting for 10.64.48.58: 0.596932 seconds lagged."),
    ("host", .str "10.64.48.58"),
    ("lag", .num ⟨596, 3⟩),
    ("type", .str "db"),
    ("*", .str "See https://www.mediawiki.org/w/api.php for API usage.")]),
  ("servedby", .str "mw1359")]

/-- The `MISSING_TITLE_PAGE` payload of src/fetch.rs. -/
def missing_title_page : Json := .obj [
  ("error", .obj [
    ("code", .str "missingtitle"),
    ("info", .str "The page you specified doesn't exist."),
    ("*", .str "See https://en.wikipedia.org/w/api.php for API usage.")]),
  ("servedby", .str "mw1316")]

/-- The `FAIL_PAGE` payload of src/fetch.rs: a JSON object matching none of
the three decoded shapes. -/
def fail_page : Json := .obj [
  ("invalid", .obj [
    ("title", .str "Value network"),
    ("pageid", .num ⟨1614337, 0⟩),
    ("links", .arr [.obj [("ns", .num ⟨0, 0⟩), ("exists", .str ""), ("*", .str "Adolescent cliques")]])])]

/-- An upstream error payload whose `error.code` is not `missingtitle`: the
shape of a MediaWiki error body with an unrelated code. -/
def rate_limited_page : Json := .obj [
  ("error", .obj [
    ("code", .str "ratelimited"),
    ("info", .str "You have exceeded your rate limit."),
    ("*", .str "See the API documentation.")]),
  ("servedby", .str "mw1234")]

/-- An environment whose cache is empty and whose upstream answers every
request with the maxlag payload. -/
def lag_env : FetchEnv :=
  { cache_root := [], fs := [], http := fun _ => .ok (some maxlag_page) }

/-! ## Helper lemmas -/

/-- `rust_trim_list` is `dropWhile` from the front followed by Mathlib's
`rdropWhile` from the back. -/
theorem rust_trim_list_eq (l : List Char) :
    rust_trim_list l = List.rdropWhile rust_is_whitespace (l.dropWhile rust_is_whitespace) := rfl

/-- Removing trailing whitespace preserves "no leading whitespace". -/
theorem dropWhile_fix_rdropWhile {α : Type} (p : α → Bool) (x : List α)
    (hx : x.dropWhile p = x) : (x.rdropWhile p).dropWhile p = x.rdropWhile p := by
  rw [List.dropWhile_eq_self_iff] at hx ⊢
  intro hl
  have hpre := List.rdropWhile_prefix p x
  have hlen : 0 < x.length := lt_of_lt_of_le hl hpre.length_le
  have hg : (x.rdropWhile p).get ⟨0, hl⟩ = x.get ⟨0, hlen⟩ := by
    simpa [List.get_eq_getElem] using hpre.getElem hl
  rw [hg]
  exact hx hlen

/-- Rust's `str::trim` is idempotent (on character lists). -/
theorem rust_trim_list_idem (l : List Char) :
    rust_trim_list (rust_trim_list l) = rust_trim_list l := by
  rw [rust_trim_list_eq, rust_trim_list_eq,
      dropWhile_fix_rdropWhile rust_is_whitespace _ (List.dropWhile_idempotent _ _),
      List.rdropWhile_idempotent]

/-- Rust's `str::trim` is idempotent. -/
theorem rust_trim_idem (s : String) : rust_trim (rust_trim s) = rust_trim s :=
  congrArg String.mk (rust_trim_list_idem s.data)

/-- If every upstream answer parses to a `Lag` error, the `check_maxlag` loop
spends its whole budget: `tries` refetches, `tries` sleeps, and a `Lag`
result.  The cache is untouched. -/
theorem check_maxlag_go_all_lag (http : Nat → Except FetchError Body) (path : FsPath)
    (fs : Fs) :
    ∀ (tries attempt : Nat) (page : Body) (l : JsonNum),
      (∀ n, ∃ body lag, http n = .ok body ∧ parse body = .error (.Lag lag)) →
      ∃ lag, check_maxlag_go http path attempt tries (.error (.Lag l)) page fs =
        { result := .error (.Lag lag), fs := fs, fetches := tries, sleeps := tries } := by
  intro tries
  induction tries with
  | zero => exact fun attempt page l _ => ⟨l, rfl⟩
  | succ t ih =>
    intro attempt page l h
    obtain ⟨b, lg, hb, hp⟩ := h attempt
    obtain ⟨lag, hout⟩ := ih (attempt + 1) b lg h
    exact ⟨lag, by simp only [check_maxlag_go, hb, hp, hout]⟩

/-- The `check_maxlag` loop never refetches more often than its budget. -/
theorem check_maxlag_go_fetches_le (http : Nat → Except FetchError Body) (path : FsPath) :
    ∀ (tries attempt : Nat) (response : FetchResult) (page : Body) (fs : Fs),
      (check_maxlag_go http path attempt tries response page fs).fetches ≤ tries := by
  intro tries
  induction tries with
  | zero =>
    intro attempt response page fs
    rcases response with e | entry
    · rcases e with m | m | st | l | _ | m <;> simp [check_maxlag_go]
    · simp [check_maxlag_go]
  | succ t ih =>
    intro attempt response page fs
    rcases response with e | entry
    · rcases e with m | m | st | l | _ | m
      case Lag =>
        rcases hh : http attempt with e2 | page2
        · simp [check_maxlag_go, hh]
        · simpa [check_maxlag_go, hh] using ih (attempt + 1) (parse page2) page2 fs
      all_goals simp [check_maxlag_go]
    · simp [check_maxlag_go]

/-- One `get_links_from_title` call makes at most 5 upstream attempts. -/
theorem get_links_http_attempts_le (env : FetchEnv) (title : String) :
    (get_links_from_title env title).http_attempts ≤ 5 := by
  unfold get_links_from_title get_links_trimmed get_page_from
  rcases h : fs_read env.fs (get_cache_directory_from env.cache_root (rust_trim title)) with _ | b
  · rcases hh : env.http 0 with e | b0
    · simp [h, hh]
    · simp [h, hh, check_maxlag]
      have := check_maxlag_go_fetches_le env.http
        (get_cache_directory_from env.cache_root (rust_trim title)) 4 1 (parse b0) b0 env.fs
      omega
  · simp [h, check_maxlag]
    have := check_maxlag_go_fetches_le env.http
      (get_cache_directory_from env.cache_root (rust_trim title)) 4 1 (parse b) b env.fs
    omega

/-! ## Validation against the repository's own test vectors

Anonymous checks mirroring `#[test]` functions in the source: `test_parse_*`
(src/fetch.rs), `test_get_*` and `test_extract_*` (src/foundation.rs),
`test_round_down` and `test_build_url`. -/

example : parse (some success_page) = .ok
    { digest := [165, 46, 141, 56, 102, 47, 14, 148, 186, 90, 70, 92, 181, 12, 96, 46],
      title := "Value network", outbound := ["Adolescent cliques", "Assortative mixing"] } := by
  decide

example : parse (some maxlag_page) = .error (.Lag ⟨596, 3⟩) := by decide

example : parse (some missing_title_page) = .error .MissingTitle := by decide

example : parse (some fail_page) = .error (.Parse PARSE_ERROR) := by decide

example : round_down_to_power_of_2 31 = 16 ∧ round_down_to_power_of_2 17 = 16 ∧
    round_down_to_power_of_2 16 = 16 := by decide

example : extract_worker_id_from 127 (Entry.get_digest "Rail transport") = 11 ∧
    extract_slab_id_from 31 (Entry.get_digest "Rail transport") = 4 := by decide

example : build_url "https://en.wikipedia.org/" "Value network" =
    ("https://en.wikipedia.org/",
     [("action", "parse"), ("format", "json"), ("page", "Value network"), ("prop", "links")]) := by
  decide

/-! ## The claims -/

/-- Claim C1: the spec says a worker answering `Request{title, reply}` looks
the title up by full digest in the slab selected by `slab_id` and replies
`Links{entry}` when Resolved, `Missing` when Missing, and otherwise inserts a
Pending entry, enqueues a fetch and replies `Fetch`.  The code does none of
this: `process_request` replies `Fetch` unconditionally for every title,
consults no slab (the `Worker` struct owns no slab storage), installs
nothing, and never contacts the fetcher; `WorkerResponse` has no `Missing`
variant and its `Links` variant carries no entry.  This theorem evaluates the
code's step at an arbitrary request. -/
theorem worker_request_always_replies_fetch :
    ∀ (bitwise_worker_match : Nat) (title : String),
      worker_step bitwise_worker_match (.Request title) =
        .continues { replies := [.Fetch], fetch_requests := [], slab_insertions := [] } :=
  fun _ _ => rfl

/-- Claim C2: the spec says the upstream request carries
`action/format/page/prop/maxlag=5` and is sent with gzip and a descriptive
user agent.  In the code, `build_url` omits `maxlag` (it appears only in the
unused `ATTRIBUTES_FOR_PAGE` static) and `fetch_page` calls the free function
`reqwest::get`, bypassing the configured `CLIENT`, so neither the gzip
preference nor the user agent is applied.  This theorem evaluates the request
that `fetch_page` issues for a concrete title. -/
theorem fetch_request_lacks_maxlag_and_headers :
    (fetch_page_request "https://en.wikipedia.org/w/api.php" "Value network").url.2 =
      [("action", "parse"), ("format", "json"), ("page", "Value network"), ("prop", "links")] ∧
    ((fetch_page_request "https://en.wikipedia.org/w/api.php" "Value network").url.2.map
        Prod.fst).contains "maxlag" = false ∧
    (fetch_page_request "https://en.wikipedia.org/w/api.php" "Value network").client.gzip = false ∧
    (fetch_page_request "https://en.wikipedia.org/w/api.php" "Value network").client.user_agent
      = none ∧
    ("maxlag", MAXLAG) ∈ ATTRIBUTES_FOR_PAGE ∧
    CLIENT = { gzip := true, user_agent := some "SixDegrees/0.1 sixdegrees@streete.net" } := by
  decide

/-- Claim C3: `configure(memory_kib = 8589934, cores = 8, override_workers =
16)` returns 16 workers, 256 slabs per worker and 6534 spare slabs, following
the sizing algorithm; the final conjuncts re-derive the three outputs from the
claim's formula (reserve `= 1 GiB + max(8·16/1024, 1024) + 16 + 64·16/1024`
KiB, `slabs_total = min((memory − reserve)/1024, 65535)`). -/
theorem foundation_sizing_concrete :
    get_foundation_for 8589934 8 16 =
      some { worker_count := 16, bitwise_worker_match := 15, slabs_per_worker := 256,
             bitwise_slab_match := 255, spare_count := 6534, spare_slabs := [] } ∧
    16 = round_down_to_power_of_2 16 ∧
    256 = round_down_to_power_of_2
      (min ((8589934 - (1024 * 1024 + max (8 * 16 / 1024) 1024 + 16 + 64 * 16 / 1024)) / 1024)
        65535 / 16) ∧
    6534 = (min ((8589934 - (1024 * 1024 + max (8 * 16 / 1024) 1024 + 16 + 64 * 16 / 1024)) / 1024)
        65535 - 16 * 256) * 2 := by
  refine ⟨by decide, by decide, by decide, by decide⟩

/-- Claim C4: a `get` whose upstream answers are all MaxLag errors makes the
initial attempt plus exactly 4 retries (5 upstream attempts), sleeps
`MAXLAG_VALUE = 5` seconds before each retry, and returns a `Lag` error; and
unconditionally, any `get` makes at most 5 upstream attempts. -/
theorem maxlag_retry_budget :
    (∀ (env : FetchEnv) (title : String), (get_links_from_title env title).http_attempts ≤ 5) ∧
    ∀ (env : FetchEnv) (title : String),
      fs_read env.fs (get_cache_directory_from env.cache_root (rust_trim title)) = none →
      (∀ n, ∃ body lag, env.http n = .ok body ∧ parse body = .error (.Lag lag)) →
      (∃ lag, (get_links_from_title env title).result = .error (.Lag lag)) ∧
      (get_links_from_title env title).http_attempts = 5 ∧
      (get_links_from_title env title).sleeps = 4 ∧
      MAXLAG_VALUE = 5 := by
  refine ⟨get_links_http_attempts_le, ?_⟩
  intro env title hmiss hlag
  obtain ⟨b0, l0, hb0, hp0⟩ := hlag 0
  obtain ⟨lag, hout⟩ := check_maxlag_go_all_lag env.http
    (get_cache_directory_from env.cache_root (rust_trim title)) env.fs 4 1 b0 l0 hlag
  unfold get_links_from_title get_links_trimmed get_page_from
  simp only [hmiss, hb0, check_maxlag, hp0, hout]
  exact ⟨⟨lag, by simp⟩, by simp, by simp, by simp [MAXLAG_VALUE]⟩

/-- Claim C4, witness: in the concrete environment `lag_env` (empty cache,
every upstream answer the maxlag payload) the call returns a `Lag` error
after 5 upstream attempts and 4 five-second sleeps. -/
theorem maxlag_retry_budget_witness :
    (∃ lag, (get_links_from_title lag_env "Maxlag Value").result = .error (.Lag lag)) ∧
    (get_links_from_title lag_env "Maxlag Value").http_attempts = 5 ∧
    (get_links_from_title lag_env "Maxlag Value").sleeps = 4 ∧
    MAXLAG_VALUE = 5 :=
  maxlag_retry_budget.2 lag_env "Maxlag Value" rfl
    (fun _ => ⟨some maxlag_page, ⟨596, 3⟩, rfl, by decide⟩)

/-- Claim C5, counterexample: the claim says `parse` returns `MissingTitle`
exactly when `error.code` equals `"missingtitle"`.  The derived deserializer
never inspects the code, so a body whose `error.code` is `"ratelimited"` also
yields `MissingTitle`. -/
theorem parse_missingtitle_ignores_code :
    parse (some rate_limited_page) = .error .MissingTitle ∧
    (decodeMissingTitleError rate_limited_page).map (fun e => e.error.code) =
      some "ratelimited" ∧
    "ratelimited" ≠ "missingtitle" := by
  decide

/-- Claim C5 (amended): `parse` returns `MissingTitle` exactly when the body
fails the success and maxlag shapes but deserializes as a `MissingTitleError`
(an `error` object with string fields `code`, `info` and `*`, plus a
top-level string `servedby`) — whatever the value of `error.code`; every
other unrecognized body, including non-JSON text, yields a `Parse` error
carrying the fixed message `PARSE_ERROR`.  The missing-title payload from the
source's tests indeed yields `MissingTitle`. -/
theorem parse_missingtitle_shape :
    (∀ j : Json,
       (parse (some j) = .error .MissingTitle ↔
         decodePage j = none ∧ decodeMaxLagError j = none ∧
           (decodeMissingTitleError j).isSome = true) ∧
       (parse (some j) = .error (.Parse PARSE_ERROR) ↔
         decodePage j = none ∧ decodeMaxLagError j = none ∧ decodeMissingTitleError j = none)) ∧
    parse none = .error (.Parse PARSE_ERROR) ∧
    parse (some missing_title_page) = .error .MissingTitle := by
  refine ⟨?_, by decide, by decide⟩
  intro j
  unfold parse
  rcases h1 : decodePage j with _ | p
  · rcases h2 : decodeMaxLagError j with _ | ml
    · rcases h3 : decodeMissingTitleError j with _ | mt
      · simp [h1, h2, h3]
      · simp [h1, h2, h3]
    · simp [h1, h2]
  · simp [h1, extract_links_from]

/-- Claim C6: routing is deterministic and little-endian — `worker_id` is the
`u16` of digest octets 0-1 masked with `worker_count − 1`, `slab_id` the
`u16` of octets 2-3 masked with `slabs_per_worker − 1`; concretely, in the
16-worker × 256-slab topology, `digest("Rail transport")` routes to worker 11
and slab 196. -/
theorem routing_formula_and_rail_transport :
    (∀ (mask : Nat) (digest : Digest), digest.getD 0 0 < 256 → digest.getD 1 0 < 256 →
        extract_worker_id_from mask digest = (digest.getD 0 0 + 256 * digest.getD 1 0) &&& mask) ∧
    (∀ (mask : Nat) (digest : Digest), digest.getD 2 0 < 256 → digest.getD 3 0 < 256 →
        extract_slab_id_from mask digest = (digest.getD 2 0 + 256 * digest.getD 3 0) &&& mask) ∧
    extract_worker_id_from (16 - 1) (Entry.get_digest "Rail transport") = 11 ∧
    extract_slab_id_from (256 - 1) (Entry.get_digest "Rail transport") = 196 := by
  refine ⟨?_, ?_, by decide, by decide⟩
  · intro mask digest h0 h1
    simp only [extract_worker_id_from]
    have e1 : digest.getD 1 0 * 2 ^ 8 % 65536 = digest.getD 1 0 * 256 :=
      Nat.mod_eq_of_lt (by omega)
    rw [e1, Nat.mod_eq_of_lt (by omega)]
    congr 1
    omega
  · intro mask digest h2 h3
    simp only [extract_slab_id_from]
    have e1 : digest.getD 3 0 * 2 ^ 8 % 65536 = digest.getD 3 0 * 256 :=
      Nat.mod_eq_of_lt (by omega)
    rw [e1, Nat.mod_eq_of_lt (by omega)]
    congr 1
    omega

/-- Claim C6, witness: the little-endian formula applied at the first digest
octets of "Rail transport" (11, 99) and its slab octets (196, 186). -/
theorem routing_formula_witness :
    extract_worker_id_from 15 [11, 99] = (11 + 256 * 99) &&& 15 ∧
    extract_slab_id_from 255 [0, 0, 196, 186] = (196 + 256 * 186) &&& 255 :=
  ⟨routing_formula_and_rail_transport.1 15 [11, 99] (by decide) (by decide),
   routing_formula_and_rail_transport.2.1 255 [0, 0, 196, 186] (by decide) (by decide)⟩

/-- Claim C7: the spec says an `Update(entry)` installs or replaces the entry
and the worker continues its loop, panicking only on contract violations.  In
the code the `Update` arm of `worker_service` is `todo!()`, which panics
("not yet implemented") for every entry, so the worker never installs
anything and its loop dies. -/
theorem worker_update_panics :
    ∀ (bitwise_worker_match : Nat) (e : Entry),
      worker_step bitwise_worker_match (.Update e) = .fatal "not yet implemented" :=
  fun _ _ => rfl

/-- Claim C8, counterexample: the claim says the cache file is
`{cache_root}/{d[2]}/{d[1]}/{d[0]}/{title}.json`.  `PathBuf::set_extension`
replaces an existing extension instead of appending, so for the title `A.B`
the file name is `A.json`, not `A.B.json`. -/
theorem cache_path_dotted_title :
    (get_cache_directory_from [] "A.B").getLastD "" = "A.json" ∧
    (get_cache_directory_from [] "A.B").getLastD "" ≠ "A.B" ++ ".json" := by
  decide

/-- Claim C8 (amended): with the cache path as the code computes it (digest
octets 2/1/0 hex-formatted, file name = title with its Rust path extension
replaced by `json`), writing a body and reading it back through
`get_page_from` returns exactly that body without any HTTP request, so
parsing the reread file equals parsing the original body:
`parse(read(write(body))) = parse(body)`. -/
theorem cache_round_trip :
    ∀ (env : FetchEnv) (title : String) (body : Body),
      get_page_from
        { env with
          fs := cache_page body (some (get_cache_directory_from env.cache_root title)) env.fs }
        title = (.ok body, false) ∧
      parse (((get_page_from
        { env with
          fs := cache_page body (some (get_cache_directory_from env.cache_root title)) env.fs }
        title).1).toOption.getD none) = parse body := by
  intro env title body
  have h : get_page_from
      { env with
        fs := cache_page body (some (get_cache_directory_from env.cache_root title)) env.fs }
      title = (.ok body, false) := by
    unfold get_page_from cache_page fs_write fs_read
    simp [List.find?]
  exact ⟨h, by rw [h]; rfl⟩

/-- Claim C9, counterexample: the claim says every request with a wrong path
or a non-GET method gets a 404 whose textual body names the path.  A `POST`
to `/connections` gets the 404 from `Response::default()`, whose body is
empty and in particular does not contain the path. -/
theorem api_404_non_get_empty_body :
    api_service { method := "POST", path := "/connections", query := none } =
      { status := 404, body := "" } ∧
    ¬ List.IsInfix "/connections".data
        (api_service { method := "POST", path := "/connections", query := none }).body.data := by
  decide

/-- Claim C9 (amended): non-GET requests get a 404 with an empty body; GET
requests whose path does not split into exactly two `/`-separated components
with the second ASCII-case-insensitively equal to `connections` get a 404
whose body `Nothing found at {path}` names the path.  (A GET path such as
`/CONNECTIONS` is matched case-insensitively and served 200, so "path is not
`/connections`" alone does not imply 404.) -/
theorem api_404_amended :
    (∀ req : HttpRequest, req.method ≠ "GET" →
       api_service req = { status := 404, body := "" }) ∧
    (∀ req : HttpRequest, req.method = "GET" →
       ((split_on_slash req.path).length ≠ 2 ∨
        ascii_lowercase ((split_on_slash req.path).getD 1 "") ≠ "connections") →
       api_service req = { status := 404, body := "Nothing found at " ++ req.path } ∧
       List.IsInfix req.path.data ("Nothing found at " ++ req.path).data) := by
  constructor
  · intro req h
    unfold api_service
    rw [if_neg h]
  · intro req hm hcond
    constructor
    · unfold api_service
      rw [if_pos hm, if_pos hcond]
    · exact ⟨"Nothing found at ".data, [], by simp⟩

/-- Claim C9, witness: a `PUT` request gets the empty-bodied 404, and
`GET /missing` gets the path-naming 404. -/
theorem api_404_witness :
    api_service { method := "PUT", path := "/connections", query := none } =
      { status := 404, body := "" } ∧
    (api_service { method := "GET", path := "/missing", query := none } =
      { status := 404, body := "Nothing found at /missing" } ∧
     List.IsInfix "/missing".data ("Nothing found at " ++ "/missing").data) :=
  ⟨api_404_amended.1 { method := "PUT", path := "/connections", query := none } (by decide),
   api_404_amended.2 { method := "GET", path := "/missing", query := none } rfl (by decide)⟩

/-- Claim C10: `get_links_from_title` trims the title first and uses the
trimmed title for the cache path, the upstream request and the retry loop, so
its entire observable outcome (result, cache contents, upstream attempts,
sleeps) on any title equals its outcome on the trimmed title. -/
theorem get_links_trim_invariant :
    ∀ (env : FetchEnv) (title : String),
      get_links_from_title env title = get_links_from_title env (rust_trim title) := by
  intro env title
  unfold get_links_from_title
  rw [rust_trim_idem]
